import Mathlib

/-!
Shallow embedding of the core of `wordsensei.py` (a chat word-game bot):
the Wordle-style feedback algorithm, the single-user guess session handler,
and the multiplayer chain-game ("basic game") handler with its timer loop.
Machine integers are modelled as `Int`/`Nat` (Python integers are unbounded),
Python `None` string fields as `Option`/empty string as noted, dictionaries
as association lists, and the external dictionary API as an oracle parameter.
-/

namespace WordSensei

/-- A feedback square: 🟩 (exact), 🟨 (present) or ⬜ (absent). -/
inductive Square
  | exact
  | present
  | absent
  deriving DecidableEq, Repr

/-- First pass of `get_wordle_feedback` (source lines 2004-2010): walk guess and
target in lockstep; on a positional match record `true` in the feedback
placeholder list and blank the target slot (`none`), otherwise record `false`
and keep the target character (`some t`). Returns the placeholder list
(aligned with the guess) and the working copy of the target characters. -/
def pass1 : List Char → List Char → List Bool × List (Option Char)
  | [], _ => ([], [])
  | _ :: _, [] => ([], [])
  | g :: gs, t :: ts =>
    let r := pass1 gs ts
    if g = t then (true :: r.1, none :: r.2) else (false :: r.1, some t :: r.2)

/-- `target_chars[target_chars.index(char)] = None` (source line 2017):
blank the first remaining occurrence of `c` in the working target copy. -/
def removeFirst (c : Char) : List (Option Char) → List (Option Char)
  | [] => []
  | x :: xs => if x = some c then none :: xs else x :: removeFirst c xs

/-- Second pass of `get_wordle_feedback` (source lines 2012-2019): positions
marked exact in pass 1 stay 🟩; otherwise, if the guess character is still in
the working target copy it becomes 🟨 and consumes that occurrence, else ⬜. -/
def pass2 : List (Char × Bool) → List (Option Char) → List Square
  | [], _ => []
  | (_, true) :: rest, tc => Square.exact :: pass2 rest tc
  | (c, false) :: rest, tc =>
    if some c ∈ tc then Square.present :: pass2 rest (removeFirst c tc)
    else Square.absent :: pass2 rest tc

/-- The equal-length core of `get_wordle_feedback`: run pass 1 then pass 2. -/
def wordleFeedback (guess target : List Char) : List Square :=
  let r := pass1 guess target
  pass2 (guess.zip r.1) r.2

/-- `get_wordle_feedback` (source lines 1996-2021). The Python function
returns the string `"❌"` on a length mismatch and otherwise a string of
squares; we keep the squares structured (`Sum.inr`) instead of rendering
them to emoji, and return the sentinel on the left. -/
def get_wordle_feedback (guess target : String) : Sum String (List Square) :=
  if guess.length ≠ target.length then Sum.inl "❌"
  else Sum.inr (wordleFeedback guess.data target.data)

/-- Python `str.isalpha()`: non-empty and every character alphabetic. -/
def pyIsAlpha (s : String) : Bool :=
  !s.isEmpty && s.data.all Char.isAlpha

/-- Python `str.upper()` (character-wise, on the underlying list). -/
def pyUpper (s : String) : String :=
  String.mk (s.data.map Char.toUpper)

/-- Python `str.lower()` (character-wise, on the underlying list). -/
def pyLower (s : String) : String :=
  String.mk (s.data.map Char.toLower)

/-- Python `str.strip()`: drop whitespace from both ends. -/
def pyStrip (s : String) : String :=
  String.mk
    (((s.data.dropWhile Char.isWhitespace).reverse.dropWhile
        Char.isWhitespace).reverse)

/-- Python `str.startswith(p)`. -/
def pyStartsWith (s p : String) : Bool :=
  p.data.isPrefixOf s.data

/-- `UserSession` (source lines 183-194), the single-user guess session.
Python initialises `current_word` to `None` and clears it to `""`; the code
only ever tests its truthiness, so both falsy values are modelled as `""`.
`max_attempts` is a Python float that is either a number or `float('inf')`;
modelled as `Option Nat` with `none` for infinity. `timer_expired` is set
dynamically by `handle_guess` (source line 1896), default `false`. -/
structure UserSession where
  current_word : String := ""
  guesses : List String := []
  game_active : Bool := false
  word_length : Nat := 5
  attempts : Nat := 0
  max_attempts : Option Nat := some 6
  timer_difficulty : String := "noob"
  game_start_time : Option Int := none
  timer_expired : Bool := false
  deriving DecidableEq, Repr

/-- `get_timer_seconds` (source lines 390-398). -/
def get_timer_seconds (difficulty : String) : Nat :=
  if difficulty = "hard" then 30
  else if difficulty = "medium" then 60
  else if difficulty = "easy" then 300
  else 0

/-- `is_timer_expired` (source lines 400-410); wall-clock time is the
explicit `now` parameter. -/
def is_timer_expired (s : UserSession) (now : Int) : Bool :=
  if s.timer_difficulty = "noob" ∨ s.game_start_time = none then false
  else
    let secs := get_timer_seconds s.timer_difficulty
    if secs = 0 then false
    else
      match s.game_start_time with
      | none => false
      | some start => decide (now - start ≥ (secs : Int))

/-- Which branch of `handle_guess` (source lines 1888-1978) ran. -/
inductive GuessOutcome
  | noGame
  | expired
  | notAlpha
  | badLength
  | wrongLength
  | alreadyGuessed
  | won
  | lostAttempts
  | continued
  deriving DecidableEq, Repr

/-- Number of `message.answer` calls the corresponding branch of
`handle_guess` performs (silent branches answer zero times). -/
def guess_reply_count : GuessOutcome → Nat
  | .noGame => 0
  | .expired => 1
  | .notAlpha => 0
  | .badLength => 0
  | .wrongLength => 0
  | .alreadyGuessed => 1
  | .won => 2
  | .lostAttempts => 2
  | .continued => 1

/-- The individual-session path of `handle_guess` (source lines 1888-1978):
no-active-game guard, lazy timer-expiry check, admission filters
(alphabetic, length in [3,7], length equals target length, not already
guessed after upper-casing), then append the guess, increment attempts and
pick the win / attempts-exhausted / continue branch. -/
def handle_guess (s : UserSession) (now : Int) (text : String) :
    UserSession × GuessOutcome :=
  if ¬ s.game_active ∨ s.current_word = "" then (s, .noGame)
  else if is_timer_expired s now then
    ({ s with game_active := false, timer_expired := true }, .expired)
  else
    let guess := pyStrip (pyUpper text)
    if ¬ pyIsAlpha guess then (s, .notAlpha)
    else if guess.length < 3 ∨ guess.length > 7 then (s, .badLength)
    else if guess.length ≠ s.current_word.length then (s, .wrongLength)
    else if guess ∈ s.guesses then (s, .alreadyGuessed)
    else
      let s1 := { s with guesses := s.guesses ++ [guess],
                         attempts := s.attempts + 1 }
      if guess = s1.current_word then
        ({ s1 with game_active := false, current_word := "" }, .won)
      else if (match s1.max_attempts with
               | some m => decide (s1.attempts ≥ m)
               | none => false) then
        ({ s1 with game_active := false, current_word := "" }, .lostAttempts)
      else (s1, .continued)

/-- `stop_command` (source lines 743-793) restricted to the guess-session
state; `has_group`/`has_basic` say whether the chat hosts a group or chain
game (those registries are separate state). Returns the updated session and
whether there was a game to stop. The target word is only displayed in the
summary, never cleared. -/
def stop_command (s : UserSession) (has_group has_basic : Bool) :
    UserSession × Bool :=
  if ¬ s.game_active ∧ ¬ has_group ∧ ¬ has_basic then (s, false)
  else ({ s with game_active := false }, true)

/-- One entry of `BasicGameSession.players` (source line 200). -/
structure PlayerInfo where
  name : String
  full_name : String
  user_id : Int
  eliminated : Bool
  deriving DecidableEq, Repr

/-- `BasicGameSession` (source lines 196-218), the chain-game ("basic game")
session. The Python `players` dict is an insertion-ordered association
list; `game_state` is the literal Python string tag. -/
structure BasicGameSession where
  chat_id : Int
  creator_id : Int
  players : List (Int × PlayerInfo) := []
  turn_order : List Int := []
  current_turn_index : Nat := 0
  current_required_letter : Option Char := none
  words_used : List String := []
  game_state : String := "waiting"
  join_time_left : Int := 60
  turn_time_left : Int := 40
  current_turn_timer : Int := 40
  last_word : Option String := none
  total_words : Nat := 0
  min_word_length : Nat := 3
  max_players : Nat := 50
  min_players : Nat := 2
  timer_expired : Bool := false
  longest_word : String := ""
  longest_word_player : String := ""
  deriving DecidableEq, Repr

/-- `get_current_player` (source lines 312-316). -/
def get_current_player (g : BasicGameSession) : Option Int :=
  if g.turn_order = [] then none
  else g.turn_order.get? g.current_turn_index

/-- `is_valid_word` (source lines 291-310). The dictionary API call is the
oracle `api`: `some ok` models an HTTP response (`ok` = status 200), `none`
models an exception, which triggers the fallback heuristic
`word.isalpha() and len(word) >= 3`. -/
def is_valid_word (api : Option Bool) (word : String) : Bool :=
  if word = "" ∨ word.length < 3 then false
  else if ¬ pyIsAlpha word then false
  else
    match api with
    | some ok => ok
    | none => pyIsAlpha word && decide (word.length ≥ 3)

/-- The HTML user mention built at source lines 1633 and 1749. -/
def mention (uid : Int) (name : String) : String :=
  "<a href='tg://user?id=" ++ toString uid ++ "'>" ++ name ++ "</a>"

/-- Which branch of `handle_basic_game_word` (source lines 1593-1676) ran. -/
inductive WordReply
  | notYourTurn
  | invalidWord
  | tooShort
  | wrongLetter
  | alreadyUsed
  | accepted
  deriving DecidableEq, Repr

/-- `handle_basic_game_word` (source lines 1593-1676): turn-ownership guard,
then the four validation checks in source order (dictionary legality,
minimum length, required starting letter, not already used
case-insensitively), then acceptance with difficulty scaling and turn
advance. `api` is the dictionary oracle passed through to `is_valid_word`. -/
def handle_basic_game_word (api : Option Bool) (g : BasicGameSession)
    (user_id : Int) (text : String) : BasicGameSession × WordReply :=
  let word := pyStrip (pyUpper text)
  if get_current_player g ≠ some user_id then (g, .notYourTurn)
  else if ¬ is_valid_word api word then (g, .invalidWord)
  else if word.length < g.min_word_length then (g, .tooShort)
  else if (match g.current_required_letter with
           | some req => !pyStartsWith word (String.mk [req])
           | none => false : Bool) then (g, .wrongLetter)
  else if (g.words_used.map pyLower).contains (pyLower word) then
    (g, .alreadyUsed)
  else
    let g1 := { g with words_used := g.words_used ++ [word],
                       total_words := g.total_words + 1,
                       last_word := some word,
                       current_required_letter := word.data.getLast? }
    let g2 :=
      if word.length > g1.longest_word.length then
        { g1 with longest_word := word,
                  longest_word_player :=
                    mention user_id
                      (match g1.players.lookup user_id with
                       | some p => p.full_name
                       | none => "") }
      else g1
    let g3 :=
      if g2.total_words % 3 = 0 ∧ g2.turn_time_left > 15 then
        { g2 with turn_time_left := max 15 (g2.turn_time_left - 5) }
      else g2
    let g4 :=
      if g3.total_words % 2 = 0 ∧ g3.min_word_length < 9 then
        { g3 with min_word_length := g3.min_word_length + 1 }
      else g3
    let g5 := { g4 with current_turn_index :=
                  (g4.current_turn_index + 1) % g4.turn_order.length }
    ({ g5 with current_turn_timer := g5.turn_time_left }, .accepted)

/-- Number of non-eliminated players, as computed by the source's
`len([p for p in game.players.values() if not p['eliminated']])`. -/
def countActive (g : BasicGameSession) : Nat :=
  (g.players.filter fun p => !p.2.eliminated).length

/-- `game.players[uid]['eliminated'] = True` on the association list. -/
def setEliminated (uid : Int) (ps : List (Int × PlayerInfo)) :
    List (Int × PlayerInfo) :=
  ps.map fun p =>
    if p.1 = uid then (p.1, { p.2 with eliminated := true }) else p

/-- The elimination block of `start_basic_game_timer` (source lines
1744-1802): mark the current player eliminated, remove them from the turn
order, wrap the index to 0 if it fell out of range, reset the personal
countdown to the shared budget; if at most one player survives the session
is deleted from the registry (`none`), otherwise the shared budget is reset
to the fixed baseline 40 (source line 1797). -/
def eliminate_current (p : Int) (g : BasicGameSession) :
    Option BasicGameSession :=
  let g1 := { g with players := setEliminated p g.players }
  let g2 := { g1 with turn_order := g1.turn_order.erase p }
  let g3 :=
    if g2.current_turn_index ≥ g2.turn_order.length then
      { g2 with current_turn_index := 0 }
    else g2
  let g4 := { g3 with current_turn_timer := g3.turn_time_left }
  if countActive g4 ≤ 1 then none
  else some { g4 with turn_time_left := 40 }

/-- One iteration of the active-phase timer loop of
`start_basic_game_timer` (source lines 1736-1802): if the loop guard fails
the session is untouched, otherwise decrement the current player's personal
countdown and, when it reaches 0, eliminate the current player.
`none` means the session was deleted from the registry. -/
def tick_active (g : BasicGameSession) : Option BasicGameSession :=
  if g.game_state ≠ "active" ∨ countActive g ≤ 1 then some g
  else
    let g1 := { g with current_turn_timer := g.current_turn_timer - 1 }
    if g1.current_turn_timer ≤ 0 then
      match get_current_player g1 with
      | none => some g1
      | some p => eliminate_current p g1
    else some g1

/-- An event acting on a live chain-game session: a word submission
(with the dictionary-oracle outcome for that call) or a one-second tick of
the session's timer task. -/
inductive ChainEvent
  | submit (api : Option Bool) (user_id : Int) (text : String)
  | tick

/-- Apply one event to a session; `none` means the session was deleted. -/
def chain_step (g : BasicGameSession) : ChainEvent → Option BasicGameSession
  | .submit api u t => some (handle_basic_game_word api g u t).1
  | .tick => tick_active g

/-- Run a list of events from a state. -/
def chain_run : BasicGameSession → List ChainEvent → Option BasicGameSession
  | g, [] => some g
  | g, e :: evs =>
    match chain_step g e with
    | none => none
    | some g1 => chain_run g1 evs

/-- A reachable just-started active chain game for chat 100 with players
1, 2, 3 (creator 1): the state `start_basic_game_timer` produces when the
shuffle yields `[1, 2, 3]` and the starting word drawn is `"LIBRARY"`
(required letter `'Y'`). -/
def c2_init : BasicGameSession where
  chat_id := 100
  creator_id := 1
  players := [(1, ⟨"A", "A", 1, false⟩), (2, ⟨"B", "B", 2, false⟩),
              (3, ⟨"C", "C", 3, false⟩)]
  turn_order := [1, 2, 3]
  current_turn_index := 0
  current_required_letter := some 'Y'
  words_used := []
  game_state := "active"
  join_time_left := 0
  turn_time_left := 40
  current_turn_timer := 40
  last_word := some "LIBRARY"
  total_words := 0
  min_word_length := 3
  max_players := 50
  min_players := 2
  timer_expired := false
  longest_word := ""
  longest_word_player := ""

/-- Three accepted words in a row: after the third, the difficulty scaling
lowers the shared turn time budget from 40 to 35. -/
def c2_submits : List ChainEvent :=
  [.submit (some true) 1 "YAK", .submit (some true) 2 "KITE",
   .submit (some true) 3 "EAGLE"]

/-- The same three submissions followed by 35 seconds of silence, which
times the then-current player out and triggers the elimination path. -/
def c2_trace : List ChainEvent :=
  c2_submits ++ List.replicate 35 ChainEvent.tick

/-- An active guess session on the hard timer tier, started at time 0,
with target `HOUSE`. -/
def c3_expired_session : UserSession :=
  { current_word := "HOUSE", game_active := true, timer_difficulty := "hard",
    game_start_time := some 0 }

/-- An active untimed guess session with target `HOUSE`. -/
def c3_active_session : UserSession :=
  { current_word := "HOUSE", game_active := true }

/-- An active guess session with target `HOUSE` and prior guess `CRANE`. -/
def c7_dup_session : UserSession :=
  { current_word := "HOUSE", game_active := true, guesses := ["CRANE"] }

end WordSensei

namespace WordSensei

theorem pass1_fst_length (g t : List Char) (h : g.length = t.length) :
    (pass1 g t).1.length = g.length := by
  induction g generalizing t with
  | nil => cases t <;> simp [pass1]
  | cons a gs ih =>
    cases t with
    | nil => simp at h
    | cons b ts =>
      simp only [List.length_cons, Nat.succ.injEq] at h
      simp only [pass1]
      by_cases hab : a = b <;> simp [hab, ih ts h]

theorem pass2_length (l : List (Char × Bool)) (tc : List (Option Char)) :
    (pass2 l tc).length = l.length := by
  induction l generalizing tc with
  | nil => simp [pass2]
  | cons p rest ih =>
    obtain ⟨c, b⟩ := p
    cases b with
    | true => simp [pass2, ih]
    | false =>
      simp only [pass2]
      by_cases hm : some c ∈ tc <;> simp [hm, ih]

theorem wordleFeedback_length (g t : List Char) (h : g.length = t.length) :
    (wordleFeedback g t).length = g.length := by
  unfold wordleFeedback
  rw [pass2_length, List.length_zip, pass1_fst_length g t h, Nat.min_self]

theorem pass2_count_exact (l : List (Char × Bool)) (tc : List (Option Char)) :
    (pass2 l tc).count Square.exact = l.countP (fun p => p.2) := by
  induction l generalizing tc with
  | nil => simp [pass2]
  | cons p rest ih =>
    obtain ⟨c, b⟩ := p
    cases b with
    | true => simp [pass2, List.count_cons, List.countP_cons, ih]
    | false =>
      simp only [pass2]
      by_cases hm : some c ∈ tc <;>
        simp [hm, List.count_cons, List.countP_cons, ih]

theorem pass1_zip_countP (q : Char → Bool) (g t : List Char) :
    ((g.zip (pass1 g t).1).countP fun p => q p.1 && p.2) =
      (g.zip t).countP fun p => decide (p.1 = p.2) && q p.1 := by
  induction g generalizing t with
  | nil => simp [pass1]
  | cons a gs ih =>
    cases t with
    | nil => simp [pass1]
    | cons b ts =>
      simp only [pass1]
      by_cases hab : a = b
      · simp only [if_pos hab, List.zip_cons_cons, List.countP_cons, ih ts]
        subst hab
        simp
      · simp only [if_neg hab, List.zip_cons_cons, List.countP_cons, ih ts]
        simp [hab]

theorem pass1_count (c : Char) (g t : List Char) (h : g.length = t.length) :
    (pass1 g t).2.count (some c) +
        ((g.zip t).countP fun p => decide (p.1 = p.2) && decide (p.1 = c)) =
      t.count c := by
  induction g generalizing t with
  | nil => cases t <;> simp_all [pass1]
  | cons a gs ih =>
    cases t with
    | nil => simp at h
    | cons b ts =>
      simp only [List.length_cons, Nat.succ.injEq] at h
      simp only [pass1]
      by_cases hab : a = b
      · subst hab
        simp only [if_pos rfl, List.zip_cons_cons, List.countP_cons,
          List.count_cons]
        have := ih ts h
        simp only [decide_eq_true_eq] at *
        by_cases hac : a = c <;> simp [hac] <;> omega
      · simp only [if_neg hab, List.zip_cons_cons, List.countP_cons,
          List.count_cons]
        have := ih ts h
        have hd : (decide (a = b) && decide (a = c)) = false := by
          simp [hab]
        rw [hd]
        by_cases hbc : b = c <;> simp [hbc, beq_iff_eq] <;> omega

theorem removeFirst_count_self (c : Char) (tc : List (Option Char))
    (h : some c ∈ tc) :
    (removeFirst c tc).count (some c) + 1 = tc.count (some c) := by
  induction tc with
  | nil => simp at h
  | cons x xs ih =>
    by_cases hx : x = some c
    · subst hx
      simp [removeFirst, List.count_cons]
    · have hmem : some c ∈ xs := by
        rcases List.mem_cons.mp h with h1 | h1
        · exact absurd h1.symm hx
        · exact h1
      simp only [removeFirst, if_neg hx, List.count_cons]
      have := ih hmem
      omega

theorem removeFirst_count_ne (c d : Char) (tc : List (Option Char))
    (h : d ≠ c) :
    (removeFirst d tc).count (some c) = tc.count (some c) := by
  induction tc with
  | nil => simp [removeFirst]
  | cons x xs ih =>
    by_cases hx : x = some d
    · subst hx
      simp only [removeFirst, if_pos rfl, List.count_cons]
      have h1 : (none : Option Char) ≠ some c := by simp
      have h2 : (some d : Option Char) ≠ some c := by simp [h]
      simp [h1, h2, beq_iff_eq, h]
    · simp only [removeFirst, if_neg hx, List.count_cons, ih]

theorem pass2_hits_le (c : Char) (l : List (Char × Bool))
    (tc : List (Option Char)) :
    (((l.map Prod.fst).zip (pass2 l tc)).countP fun p =>
        decide (p.1 = c) && !(p.2 == Square.absent)) ≤
      tc.count (some c) + l.countP (fun p => decide (p.1 = c) && p.2) := by
  induction l generalizing tc with
  | nil => simp [pass2]
  | cons p rest ih =>
    obtain ⟨ch, b⟩ := p
    cases b with
    | true =>
      simp only [pass2, List.map_cons, List.zip_cons_cons, List.countP_cons]
      have := ih tc
      by_cases hc : ch = c <;> simp [hc] <;> omega
    | false =>
      simp only [pass2, List.map_cons]
      by_cases hm : some ch ∈ tc
      · simp only [if_pos hm, List.zip_cons_cons, List.countP_cons]
        by_cases hc : ch = c
        · subst hc
          have h1 := removeFirst_count_self ch tc hm
          have h2 := ih (removeFirst ch tc)
          simp at h2 ⊢
          omega
        · have h1 := removeFirst_count_ne c ch tc hc
          have h2 := ih (removeFirst ch tc)
          simp [hc] at h2 ⊢
          omega
      · simp only [if_neg hm, List.zip_cons_cons, List.countP_cons]
        have := ih tc
        simp only [show ((Square.absent == Square.absent) = true) from rfl]
        simp only [Bool.not_true, Bool.and_false, if_false]
        by_cases hc : ch = c <;> simp [hc] <;> omega

theorem wordleFeedback_exact_count (g t : List Char)
    (h : g.length = t.length) :
    (wordleFeedback g t).count Square.exact =
      (g.zip t).countP fun p => decide (p.1 = p.2) := by
  unfold wordleFeedback
  rw [pass2_count_exact]
  have := pass1_zip_countP (fun _ => true) g t
  simpa using this

theorem wordleFeedback_letter_bound (g t : List Char)
    (h : g.length = t.length) (c : Char) :
    ((g.zip (wordleFeedback g t)).countP fun p =>
        decide (p.1 = c) && !(p.2 == Square.absent)) ≤ t.count c := by
  unfold wordleFeedback
  have hmap : (g.zip (pass1 g t).1).map Prod.fst = g := by
    apply List.map_fst_zip
    rw [pass1_fst_length g t h]
  have hb := pass2_hits_le c (g.zip (pass1 g t).1) (pass1 g t).2
  rw [hmap] at hb
  have hz := pass1_zip_countP (fun x => decide (x = c)) g t
  have hc := pass1_count c g t h
  calc ((g.zip (pass2 (g.zip (pass1 g t).1) (pass1 g t).2)).countP fun p =>
        decide (p.1 = c) && !(p.2 == Square.absent))
      ≤ (pass1 g t).2.count (some c) +
          ((g.zip (pass1 g t).1).countP fun p => decide (p.1 = c) && p.2) :=
        hb
    _ = (pass1 g t).2.count (some c) +
          ((g.zip t).countP fun p => decide (p.1 = p.2) && decide (p.1 = c)) := by
        rw [hz]
    _ = t.count c := hc

/-- C1: for every pair of equal-length guess and target strings, the
feedback function returns one symbol per position, the number of `Exact`
symbols equals the number of positions where the characters match, for
every letter the combined `Exact`/`Present` count for that letter never
exceeds its number of occurrences in the target, and for target `LEVEL`
and guess `EXCEL` the output is
`[Present, Absent, Absent, Exact, Exact]`. -/
theorem feedback_correct (g t : List Char) (h : g.length = t.length) :
    (wordleFeedback g t).length = g.length ∧
    (wordleFeedback g t).count Square.exact =
      (g.zip t).countP (fun p => decide (p.1 = p.2)) ∧
    (∀ c : Char,
      ((g.zip (wordleFeedback g t)).countP fun p =>
          decide (p.1 = c) && !(p.2 == Square.absent)) ≤ t.count c) ∧
    get_wordle_feedback "EXCEL" "LEVEL" =
      Sum.inr [Square.present, Square.absent, Square.absent,
               Square.exact, Square.exact] :=
  ⟨wordleFeedback_length g t h, wordleFeedback_exact_count g t h,
   fun c => wordleFeedback_letter_bound g t h c, by decide⟩

/-- Witness for C1 at guess `EXCEL`, target `LEVEL`. -/
theorem feedback_correct_witness :
    "EXCEL".data.length = "LEVEL".data.length ∧
    (wordleFeedback "EXCEL".data "LEVEL".data).count Square.exact =
      ("EXCEL".data.zip "LEVEL".data).countP (fun p => decide (p.1 = p.2)) :=
  ⟨by decide,
   (feedback_correct "EXCEL".data "LEVEL".data (by decide)).2.1⟩

/-- C10: the feedback function is total on all string pairs; on a length
mismatch it returns the single fixed sentinel `"❌"` and otherwise a list
of per-position symbols (one per guess position), never an exception. -/
theorem feedback_total_sentinel (g t : String) :
    (g.length ≠ t.length → get_wordle_feedback g t = Sum.inl "❌") ∧
    (g.length = t.length → ∃ l : List Square,
      get_wordle_feedback g t = Sum.inr l ∧ l.length = g.length) := by
  constructor
  · intro h
    simp [get_wordle_feedback, h]
  · intro h
    refine ⟨wordleFeedback g.data t.data, ?_, ?_⟩
    · simp [get_wordle_feedback, h]
    · exact wordleFeedback_length g.data t.data h

/-- Witness for C10 at the pairs (`AB`, `XYZ`) and (`CAT`, `DOG`). -/
theorem feedback_total_sentinel_witness :
    get_wordle_feedback "AB" "XYZ" = Sum.inl "❌" ∧
    ∃ l : List Square, get_wordle_feedback "CAT" "DOG" = Sum.inr l ∧
      l.length = "CAT".length :=
  ⟨(feedback_total_sentinel "AB" "XYZ").1 (by decide),
   (feedback_total_sentinel "CAT" "DOG").2 (by decide)⟩

/-- C2 (code evidence): after three accepted words the shared turn time
budget has been scaled down to 35, but the elimination that follows 35
silent seconds resets it to the fixed baseline 40 (source line 1797),
so `turn_time_left` is not monotonically non-increasing. -/
theorem turn_time_budget_resets_to_baseline :
    (chain_run c2_init c2_submits).map BasicGameSession.turn_time_left =
        some 35 ∧
    (chain_run c2_init c2_trace).map BasicGameSession.turn_time_left =
        some 40 :=
  ⟨by decide, by decide⟩

/-- Counterexample for C6: in a reachable session whose minimum word length
has risen to 4, the fallback path of `is_valid_word` still accepts the
3-letter word `CAT`, because its threshold is the fixed constant 3, not the
session's minimum. -/
theorem fallback_ignores_session_minimum :
    (chain_run c2_init (c2_submits.take 2)).map
        BasicGameSession.min_word_length = some 4 ∧
    is_valid_word none "CAT" = true ∧
    "CAT".length < 4 :=
  ⟨by decide, by decide, by decide⟩

/-- C6 (amended): when the dictionary API fails, `is_valid_word` accepts a
word if and only if it is alphabetic and its length is at least the fixed
constant 3 (the initial minimum word length), independent of any session. -/
theorem fallback_accepts_alpha_ge_three (w : String) :
    is_valid_word none w = (pyIsAlpha w && decide (w.length ≥ 3)) := by
  unfold is_valid_word
  by_cases h1 : w = "" ∨ w.length < 3
  · rw [if_pos h1]
    rcases h1 with h | h
    · subst h
      rfl
    · have h3 : decide (w.length ≥ 3) = false := by
        simp [Nat.not_le.mpr h]
      simp [h3]
  · rw [if_neg h1]
    by_cases h2 : pyIsAlpha w = true
    · simp [h2]
    · simp [h2]

theorem handle_guess_cases (s : UserSession) (now : Int) (text : String) :
    handle_guess s now text = (s, .noGame) ∨
    handle_guess s now text =
      ({ s with game_active := false, timer_expired := true }, .expired) ∨
    handle_guess s now text = (s, .notAlpha) ∨
    handle_guess s now text = (s, .badLength) ∨
    handle_guess s now text = (s, .wrongLength) ∨
    handle_guess s now text = (s, .alreadyGuessed) ∨
    (pyStrip (pyUpper text) = s.current_word ∧
      handle_guess s now text =
        ({ s with guesses := s.guesses ++ [pyStrip (pyUpper text)],
                  attempts := s.attempts + 1,
                  game_active := false, current_word := "" }, .won)) ∨
    (pyStrip (pyUpper text) ≠ s.current_word ∧
      handle_guess s now text =
        ({ s with guesses := s.guesses ++ [pyStrip (pyUpper text)],
                  attempts := s.attempts + 1,
                  game_active := false, current_word := "" },
         .lostAttempts)) ∨
    (pyStrip (pyUpper text) ≠ s.current_word ∧
      handle_guess s now text =
        ({ s with guesses := s.guesses ++ [pyStrip (pyUpper text)],
                  attempts := s.attempts + 1 }, .continued)) := by
  by_cases h1 : s.game_active = true
  · by_cases h2 : s.current_word = ""
    · exact Or.inl (by simp [handle_guess, h2])
    · by_cases c2 : is_timer_expired s now = true
      · exact Or.inr (Or.inl (by simp [handle_guess, h1, h2, c2]))
      · by_cases c3 : pyIsAlpha (pyStrip (pyUpper text)) = true
        · by_cases c4 : (pyStrip (pyUpper text)).length < 3 ∨
              (pyStrip (pyUpper text)).length > 7
          · exact Or.inr (Or.inr (Or.inr (Or.inl
              (by simp [handle_guess, h1, h2, c2, c3, c4]))))
          · by_cases c5 : (pyStrip (pyUpper text)).length =
                s.current_word.length
            · rw [c5] at c4
              by_cases c6 : pyStrip (pyUpper text) ∈ s.guesses
              · exact Or.inr (Or.inr (Or.inr (Or.inr (Or.inr (Or.inl
                  (by simp [handle_guess, h1, h2, c2, c3, c4, c5, c6]))))))
              · by_cases c7 : pyStrip (pyUpper text) = s.current_word
                · refine Or.inr (Or.inr (Or.inr (Or.inr (Or.inr (Or.inr
                    (Or.inl ⟨c7, ?_⟩))))))
                  rw [c7] at c3 c6
                  simp [handle_guess, h1, h2, c2, c3, c4, c5, c6, c7]
                · by_cases c8 : (match s.max_attempts with
                      | some m => decide (s.attempts + 1 ≥ m)
                      | none => false) = true
                  · refine Or.inr (Or.inr (Or.inr (Or.inr (Or.inr (Or.inr
                      (Or.inr (Or.inl ⟨c7, ?_⟩)))))))
                    simp [handle_guess, h1, h2, c2, c3, c4, c5, c6, c7, c8]
                  · refine Or.inr (Or.inr (Or.inr (Or.inr (Or.inr (Or.inr
                      (Or.inr (Or.inr ⟨c7, ?_⟩)))))))
                    simp [handle_guess, h1, h2, c2, c3, c4, c5, c6, c7, c8]
            · exact Or.inr (Or.inr (Or.inr (Or.inr (Or.inl
                (by simp [handle_guess, h1, h2, c2, c3, c4, c5])))))
        · exact Or.inr (Or.inr (Or.inl
            (by simp [handle_guess, h1, h2, c2, c3])))
  · exact Or.inl (by simp [handle_guess, h1])

/-- Counterexample for C3: a guess arriving 1000 seconds into a 30-second
round forces the `Expired` transition, which clears the active flag but
leaves the stored target word `HOUSE` in place. -/
theorem expired_keeps_target_word :
    (handle_guess c3_expired_session 1000 "CRANE").2 = GuessOutcome.expired ∧
    (handle_guess c3_expired_session 1000 "CRANE").1.game_active = false ∧
    (handle_guess c3_expired_session 1000 "CRANE").1.current_word =
      "HOUSE" ∧
    "HOUSE" ≠ "" := by
  decide

/-- C3 (amended): the `Won` and `LostAttempts` transitions clear both the
active flag and the stored target word; the `Expired` transition and the
explicit stop action clear the active flag but leave the stored target
word unchanged. -/
theorem terminal_states_clear_flags (s : UserSession) (now : Int)
    (text : String) (hg hb : Bool) :
    ((handle_guess s now text).2 = GuessOutcome.won ∨
       (handle_guess s now text).2 = GuessOutcome.lostAttempts →
      (handle_guess s now text).1.game_active = false ∧
      (handle_guess s now text).1.current_word = "") ∧
    ((handle_guess s now text).2 = GuessOutcome.expired →
      (handle_guess s now text).1.game_active = false ∧
      (handle_guess s now text).1.current_word = s.current_word) ∧
    ((stop_command s hg hb).2 = true →
      (stop_command s hg hb).1.game_active = false ∧
      (stop_command s hg hb).1.current_word = s.current_word) := by
  refine ⟨?_, ?_, ?_⟩
  · intro h
    rcases handle_guess_cases s now text with hr | hr | hr | hr | hr | hr |
      ⟨-, hr⟩ | ⟨-, hr⟩ | ⟨-, hr⟩ <;> rw [hr] at h ⊢ <;> simp_all
  · intro h
    rcases handle_guess_cases s now text with hr | hr | hr | hr | hr | hr |
      ⟨-, hr⟩ | ⟨-, hr⟩ | ⟨-, hr⟩ <;> rw [hr] at h ⊢ <;> simp_all
  · intro h
    unfold stop_command at h ⊢
    split_ifs at h ⊢ <;> simp_all

/-- Witness for C3 at a winning guess on `c3_active_session`. -/
theorem terminal_states_clear_flags_witness :
    (handle_guess c3_active_session 0 "house").1.game_active = false ∧
    (handle_guess c3_active_session 0 "house").1.current_word = "" :=
  (terminal_states_clear_flags c3_active_session 0 "house" false false).1
    (Or.inl (by decide))

/-- C4: a word submitted to an active chain game by a user who is not the
current turn-holder is answered by an early return that changes no field
of the session. -/
theorem out_of_turn_submission_no_op (api : Option Bool)
    (g : BasicGameSession) (user_id : Int) (text : String)
    (hactive : g.game_state = "active")
    (h : get_current_player g ≠ some user_id) :
    handle_basic_game_word api g user_id text =
      (g, WordReply.notYourTurn) := by
  simp [handle_basic_game_word, h]

/-- Witness for C4: player 2 submits while it is player 1's turn. -/
theorem out_of_turn_submission_no_op_witness :
    handle_basic_game_word (some true) c2_init 2 "YAK" =
      (c2_init, WordReply.notYourTurn) :=
  out_of_turn_submission_no_op (some true) c2_init 2 "YAK" (by decide)
    (by decide)

/-- C5: for the current turn-holder the checks run in source order —
dictionary legality, minimum length, required starting letter, duplicate
use (case-insensitive) — and the first failing check returns its specific
rejection with the session (hence the turn index and the personal
countdown) unchanged. -/
theorem submission_checks_in_order (api : Option Bool)
    (g : BasicGameSession) (u : Int) (text : String)
    (hcur : get_current_player g = some u) :
    let word := pyStrip (pyUpper text)
    (¬ is_valid_word api word = true →
       handle_basic_game_word api g u text = (g, WordReply.invalidWord)) ∧
    (is_valid_word api word = true →
     word.length < g.min_word_length →
       handle_basic_game_word api g u text = (g, WordReply.tooShort)) ∧
    (∀ req : Char, is_valid_word api word = true →
     ¬ word.length < g.min_word_length →
     g.current_required_letter = some req →
     pyStartsWith word (String.mk [req]) = false →
       handle_basic_game_word api g u text = (g, WordReply.wrongLetter)) ∧
    (is_valid_word api word = true →
     ¬ word.length < g.min_word_length →
     (match g.current_required_letter with
      | some req => pyStartsWith word (String.mk [req]) = true
      | none => True) →
     (g.words_used.map pyLower).contains (pyLower word) = true →
       handle_basic_game_word api g u text = (g, WordReply.alreadyUsed)) := by
  intro word
  refine ⟨?_, ?_, ?_, ?_⟩
  · intro hv
    simp [handle_basic_game_word, hcur, hv]
  · intro hv hlen
    simp [handle_basic_game_word, hcur, hv, hlen]
  · intro req hv hlen hreq hstart
    simp [handle_basic_game_word, hcur, hv, hlen, hreq, hstart]
  · intro hv hlen hreq hdup
    cases hopt : g.current_required_letter with
    | none =>
      simp only [handle_basic_game_word, hcur, hv, hlen, hopt]
      simp [hcur, hv, hlen]
      simpa using hdup
    | some req =>
      rw [hopt] at hreq
      simp only [handle_basic_game_word, hcur, hv, hlen, hopt]
      simp [hcur, hv, hlen, hreq]
      simpa using hdup

/-- Witness for C5: the dictionary rejects `YAK`, so the submission is
rejected as an invalid word with no state change. -/
theorem submission_checks_in_order_witness :
    handle_basic_game_word (some false) c2_init 1 "YAK" =
      (c2_init, WordReply.invalidWord) :=
  (submission_checks_in_order (some false) c2_init 1 "YAK" (by decide)).1
    (by decide)

/-- Counterexample for C7: a duplicate guess is rejected with no mutation,
but not silently — that branch answers the user once. -/
theorem duplicate_guess_reply_not_silent :
    (handle_guess c7_dup_session 0 "crane").2 =
      GuessOutcome.alreadyGuessed ∧
    (handle_guess c7_dup_session 0 "crane").1 = c7_dup_session ∧
    guess_reply_count (handle_guess c7_dup_session 0 "crane").2 ≠ 0 := by
  decide

/-- C7 (amended): every admission-filter rejection (non-alphabetic, length
outside [3,7], length unequal to the target length, already guessed) leaves
every session field unchanged; the first three are silent, while the
duplicate-guess rejection answers the user once. -/
theorem admission_filters_no_mutation (s : UserSession) (now : Int)
    (text : String) :
    ((handle_guess s now text).2 = GuessOutcome.notAlpha ∨
     (handle_guess s now text).2 = GuessOutcome.badLength ∨
     (handle_guess s now text).2 = GuessOutcome.wrongLength ∨
     (handle_guess s now text).2 = GuessOutcome.alreadyGuessed →
      (handle_guess s now text).1 = s) ∧
    ((handle_guess s now text).2 = GuessOutcome.notAlpha ∨
     (handle_guess s now text).2 = GuessOutcome.badLength ∨
     (handle_guess s now text).2 = GuessOutcome.wrongLength →
      guess_reply_count (handle_guess s now text).2 = 0) ∧
    ((handle_guess s now text).2 = GuessOutcome.alreadyGuessed →
      guess_reply_count (handle_guess s now text).2 = 1) := by
  refine ⟨?_, ?_, ?_⟩
  · intro h
    rcases handle_guess_cases s now text with hr | hr | hr | hr | hr | hr |
      ⟨-, hr⟩ | ⟨-, hr⟩ | ⟨-, hr⟩ <;> rw [hr] at h ⊢ <;> simp_all
  · intro h
    rcases handle_guess_cases s now text with hr | hr | hr | hr | hr | hr |
      ⟨-, hr⟩ | ⟨-, hr⟩ | ⟨-, hr⟩ <;> rw [hr] at h ⊢ <;>
      simp_all [guess_reply_count]
  · intro h
    rcases handle_guess_cases s now text with hr | hr | hr | hr | hr | hr |
      ⟨-, hr⟩ | ⟨-, hr⟩ | ⟨-, hr⟩ <;> rw [hr] at h ⊢ <;>
      simp_all [guess_reply_count]

/-- Witness for C7 at a non-alphabetic guess. -/
theorem admission_filters_no_mutation_witness :
    (handle_guess c3_active_session 0 "123").1 = c3_active_session :=
  (admission_filters_no_mutation c3_active_session 0 "123").1
    (Or.inl (by decide))

/-- C8: with turn order `[a, b, c]` and the current index 2, the current
player `c` timing out is eliminated and removed from the turn order, the
index wraps to 0, the next turn is `a`'s, and `a`'s personal countdown is
reset to the turn time budget current at the moment of elimination. -/
theorem elimination_scenario_abc (g : BasicGameSession) (a b c : Int)
    (pa pb pc : PlayerInfo)
    (hstate : g.game_state = "active")
    (hplayers : g.players = [(a, pa), (b, pb), (c, pc)])
    (hpa : pa.eliminated = false) (hpb : pb.eliminated = false)
    (hpc : pc.eliminated = false)
    (horder : g.turn_order = [a, b, c])
    (hidx : g.current_turn_index = 2)
    (htimer : g.current_turn_timer = 1)
    (hac : a ≠ c) (hbc : b ≠ c) :
    ∃ g', tick_active g = some g' ∧
      g'.players = [(a, pa), (b, pb), (c, { pc with eliminated := true })] ∧
      g'.turn_order = [a, b] ∧
      g'.current_turn_index = 0 ∧
      get_current_player g' = some a ∧
      g'.current_turn_timer = g.turn_time_left := by
  have e1 : (a == c) = false := by simp [hac]
  have e2 : (b == c) = false := by simp [hbc]
  have e3 : (c == c) = true := by simp
  have htick : tick_active g = some
      { g with
        players := [(a, pa), (b, pb), (c, { pc with eliminated := true })],
        turn_order := [a, b],
        current_turn_index := 0,
        current_turn_timer := g.turn_time_left,
        turn_time_left := 40 } := by
    simp [tick_active, countActive, eliminate_current, setEliminated,
      get_current_player, hstate, hplayers, hpa, hpb, hpc, horder, hidx,
      htimer, hac, hbc, e1, e2, e3, List.erase]
  refine ⟨_, htick, rfl, rfl, rfl, ?_, rfl⟩
  simp [get_current_player]

/-- Witness for C8 at a concrete session with players 1, 2, 3, player 3 on
turn with one second left. -/
theorem elimination_scenario_abc_witness :
    ∃ g', tick_active
        { c2_init with current_turn_index := 2, current_turn_timer := 1 } =
          some g' ∧
      g'.players = [(1, ⟨"A", "A", 1, false⟩), (2, ⟨"B", "B", 2, false⟩),
                    (3, ⟨"C", "C", 3, true⟩)] ∧
      g'.turn_order = [1, 2] ∧
      g'.current_turn_index = 0 ∧
      get_current_player g' = some 1 ∧
      g'.current_turn_timer =
        ({ c2_init with current_turn_index := 2,
                        current_turn_timer := 1 } :
          BasicGameSession).turn_time_left :=
  elimination_scenario_abc _ 1 2 3 ⟨"A", "A", 1, false⟩ ⟨"B", "B", 2, false⟩
    ⟨"C", "C", 3, false⟩ rfl rfl rfl rfl rfl rfl rfl rfl (by decide)
    (by decide)

/-- C9: for a single processed guess the win branch and the
attempts-exhausted branch are mutually exclusive (`LostAttempts` implies
the guess differs from the target, `Won` implies it equals it), and a
guess equal to the target on the final allowed attempt is reported as a
win. -/
theorem win_loss_mutually_exclusive (s : UserSession) (now : Int)
    (text : String) (m : Nat) :
    ((handle_guess s now text).2 = GuessOutcome.lostAttempts →
      pyStrip (pyUpper text) ≠ s.current_word) ∧
    ((handle_guess s now text).2 = GuessOutcome.won →
      pyStrip (pyUpper text) = s.current_word) ∧
    (s.game_active = true → s.current_word ≠ "" →
     is_timer_expired s now = false →
     pyIsAlpha (pyStrip (pyUpper text)) = true →
     ¬ ((pyStrip (pyUpper text)).length < 3 ∨
        (pyStrip (pyUpper text)).length > 7) →
     (pyStrip (pyUpper text)).length = s.current_word.length →
     pyStrip (pyUpper text) ∉ s.guesses →
     pyStrip (pyUpper text) = s.current_word →
     s.max_attempts = some m → m ≤ s.attempts + 1 →
      (handle_guess s now text).2 = GuessOutcome.won) := by
  refine ⟨?_, ?_, ?_⟩
  · intro h
    rcases handle_guess_cases s now text with hr | hr | hr | hr | hr | hr |
      ⟨hne, hr⟩ | ⟨hne, hr⟩ | ⟨hne, hr⟩ <;> rw [hr] at h <;>
      first
      | exact hne
      | simp_all
  · intro h
    rcases handle_guess_cases s now text with hr | hr | hr | hr | hr | hr |
      ⟨hne, hr⟩ | ⟨hne, hr⟩ | ⟨hne, hr⟩ <;> rw [hr] at h <;>
      first
      | exact hne
      | simp_all
  · intro h1 h2 h3 h4 h5 h6 h7 h8 h9 h10
    rw [h8] at h4 h5 h7
    simp [handle_guess, h1, h2, h3, h4, h5, h7, h8]

/-- Witness for C9: a correct guess on the sixth and final attempt wins. -/
theorem win_loss_mutually_exclusive_witness :
    (handle_guess
        { current_word := "HOUSE", game_active := true, attempts := 5,
          max_attempts := some 6 } 0 "house").2 = GuessOutcome.won :=
  (win_loss_mutually_exclusive
      { current_word := "HOUSE", game_active := true, attempts := 5,
        max_attempts := some 6 } 0 "house" 6).2.2
    (by decide) (by decide) (by decide) (by decide) (by decide) (by decide)
    (by decide) (by decide) (by decide) (by decide)

end WordSensei
